import Mathlib

/-!
Verification of the `audio_augmentor` package (files `adversarial.py` and
`speed.py`) against its natural-language specification.

The Python code is shallowly embedded: configuration dictionaries become
association lists of `Value`s, dictionary lookup failure becomes
`InitError.keyError`, the two `assert` statements become
`InitError.assertionError` carrying the enumerated valid choices, and the
construction-time side effects (adapter instantiation, weight loading,
attack instantiation) are recorded as an event trace.  Audio buffers are
lists of rationals; external library calls (the ART attack `generate`
routine, pydub `speedup`) are parameters of the embedded functions.
-/

namespace AudioAugmentor

/-- A Python configuration value: a string, a number, or a nested mapping
(used for `adv_config`). -/
inductive Value where
  | str : String → Value
  | num : ℚ → Value
  | map : List (String × ℚ) → Value
deriving DecidableEq, Repr

/-- A Python `dict` used as configuration: an association list. -/
def Config : Type := List (String × Value)

/-- Dictionary lookup, `config[k]` returning `none` on a missing key. -/
def Config.get? (c : Config) (k : String) : Option Value :=
  (c.find? (fun p => p.1 == k)).map (fun p => p.2)

/-- `SUPPORTED_CM` from `adversarial.py` line 16. -/
def SUPPORTED_CM : List String := ["rawnet2", "btse", "aasistssl", "lcnn"]

/-- `SUPPORTED_ADV` from `adversarial.py` lines 17–21. -/
def SUPPORTED_ADV : List String :=
  ["ProjectedGradientDescent", "FastGradientMethod", "AutoProjectedGradientDescent"]

/-- Python membership test `v in l` for a config value against a list of
strings (a non-string value is never a member). -/
def valueIn (v : Value) (l : List String) : Bool :=
  l.any (fun s => v == Value.str s)

/-- Errors that `AdversarialNoiseAugmentor.__init__` can raise:
a `KeyError` from a dictionary lookup, or an `AssertionError` whose message
enumerates the valid choices for a configuration field. -/
inductive InitError where
  | keyError : String → InitError
  | assertionError : String → List String → InitError
deriving DecidableEq, Repr

/-- Observable side effects of construction, in program order. -/
inductive Event where
  | baseInit
  | modelNameValidated
  | adapterInstantiated : String → Event
  | weightsLoaded : String → Event
  | advMethodValidated
  | attackInstantiated
deriving DecidableEq, Repr

/-- The state an `AdversarialNoiseAugmentor` holds after a successful
`__init__` (lines 52–56 of `adversarial.py`). -/
structure AdvState where
  model_name : Value
  model_pretrained : Value
  device : Value
  adv_method : Value
  y_true : Option ℤ
deriving DecidableEq, Repr

/-- Which extra config key the selected model branch reads:
`ssl_model` for `aasistssl` (line 75), `config_path` otherwise
(lines 63, 69, 81). -/
def branchKey (modelName : String) : String :=
  if modelName == "aasistssl" then "ssl_model" else "config_path"

/-- One model branch of `__init__` (lines 61–83): evaluating the adapter
constructor's keyword argument `config[branchKey]` may raise `KeyError`
before the adapter is instantiated; otherwise the adapter is instantiated
and its pretrained weights are loaded. -/
def runModelBranch (modelName : String) (cfg : Config) :
    List Event × Option InitError :=
  match cfg.get? (branchKey modelName) with
  | none => ([], some (InitError.keyError (branchKey modelName)))
  | some _ => ([Event.adapterInstantiated modelName, Event.weightsLoaded modelName], none)

/-- The `if self.model_name == ...` chain of lines 61–83.  The four guards
are mutually exclusive, so the sequential `if` statements behave as a
chain.  A model name outside the four branches runs none of them (it is
unreachable after the line-58 assert). -/
def runBranches (mn : Value) (cfg : Config) : List Event × Option InitError :=
  if mn == Value.str "rawnet2" then runModelBranch "rawnet2" cfg
  else if mn == Value.str "btse" then runModelBranch "btse" cfg
  else if mn == Value.str "aasistssl" then runModelBranch "aasistssl" cfg
  else if mn == Value.str "lcnn" then runModelBranch "lcnn" cfg
  else ([], none)

/-- `AdversarialNoiseAugmentor.__init__` (lines 45–90 of `adversarial.py`).
Returns the trace of side effects together with either the constructed
state or the first error raised.  `BaseAugmentor.__init__` is not under
`src/`; modelled from the spec as the lifecycle set-up step with no
configuration validation of its own (event `baseInit`). -/
def adversarialInit (cfg : Config) (y_true : Option ℤ) :
    List Event × Except InitError AdvState :=
  match cfg.get? "model_name" with
  | none => ([Event.baseInit], Except.error (InitError.keyError "model_name"))
  | some mn =>
    match cfg.get? "model_pretrained" with
    | none => ([Event.baseInit], Except.error (InitError.keyError "model_pretrained"))
    | some mp =>
      match cfg.get? "device" with
      | none => ([Event.baseInit], Except.error (InitError.keyError "device"))
      | some dv =>
        match cfg.get? "adv_method" with
        | none => ([Event.baseInit], Except.error (InitError.keyError "adv_method"))
        | some am =>
          if valueIn mn SUPPORTED_CM then
            match runBranches mn cfg with
            | (bev, some e) =>
              ([Event.baseInit, Event.modelNameValidated] ++ bev, Except.error e)
            | (bev, none) =>
              if valueIn am SUPPORTED_ADV then
                match cfg.get? "adv_config" with
                | none =>
                  ([Event.baseInit, Event.modelNameValidated] ++ bev
                      ++ [Event.advMethodValidated],
                    Except.error (InitError.keyError "adv_config"))
                | some _ =>
                  ([Event.baseInit, Event.modelNameValidated] ++ bev
                      ++ [Event.advMethodValidated, Event.attackInstantiated],
                    Except.ok ⟨mn, mp, dv, am, y_true⟩)
              else
                ([Event.baseInit, Event.modelNameValidated] ++ bev,
                  Except.error (InitError.assertionError "adv_method" SUPPORTED_ADV))
          else
            ([Event.baseInit],
              Except.error (InitError.assertionError "model_name" SUPPORTED_CM))

instance {ε α : Type} [DecidableEq ε] [DecidableEq α] :
    DecidableEq (Except ε α) := fun a b =>
  match a, b with
  | Except.error x, Except.error y =>
    if h : x = y then Decidable.isTrue (by rw [h])
    else Decidable.isFalse (fun hc => h (Except.error.inj hc))
  | Except.ok x, Except.ok y =>
    if h : x = y then Decidable.isTrue (by rw [h])
    else Decidable.isFalse (fun hc => h (Except.ok.inj hc))
  | Except.error _, Except.ok _ => Decidable.isFalse (fun hc => Except.noConfusion hc)
  | Except.ok _, Except.error _ => Decidable.isFalse (fun hc => Except.noConfusion hc)

/-- A pydub `AudioSegment`: sample values plus sample rate. -/
structure AudioSeg where
  samples : List ℚ
  sr : ℕ
deriving DecidableEq, Repr

/-- Modelled from the spec: `librosa_to_pydub` (in `utils.py`, not under
`src/`) "converts the result to an audio-segment representation". -/
def librosa_to_pydub (data : List ℚ) (sr : ℕ) : AudioSeg :=
  ⟨data, sr⟩

/-- A fixed-length chunk: the window padded with zeros up to the model's
input size `n`. -/
def padChunk (n : ℕ) (c : List ℚ) : List ℚ :=
  c ++ List.replicate (n - c.length) 0

/-- Modelled from the spec: `get_chunk` of the classifier adapters
(`artmodel`, not under `src/`): "audio split into fixed-size windows
(dictated by the classifier adapter) plus a trailing remainder size",
where the remainder size is "the length of the final, possibly shorter,
trailing chunk, recorded to allow exact-length reassembly".  Each window
has the model's input length `n`, the final one zero-padded. -/
def get_chunk (n : ℕ) (data : List ℚ) : List (List ℚ) × ℕ :=
  let len := data.length
  let k := (len + n - 1) / n
  ((List.range k).map (fun i => padChunk n ((data.drop (i * n)).take n)),
    len - (k - 1) * n)

/-- Modelled from the spec: `chunk_to_audio` of the classifier adapters
(not under `src/`): "reassembles them into a full waveform using the
remainder marker" — all chunks but the last are kept whole, the last is
truncated to the recorded remainder size. -/
def chunk_to_audio : List (List ℚ) → ℕ → List ℚ
  | [], _ => []
  | [c], lastSize => c.take lastSize
  | c :: c' :: rest, lastSize => c ++ chunk_to_audio (c' :: rest) lastSize

/-- The mutable state `transform` works on: the loaded waveform
(`self.data`), its sample rate (`self.sr`), the ground-truth label
(`self.y_true`) and the output slot (`self.augmented_audio`). -/
structure AdvTState where
  data : List ℚ
  sr : ℕ
  y_true : Option ℤ
  augmented_audio : Option AudioSeg
deriving DecidableEq, Repr

/-- `AdversarialNoiseAugmentor.transform` (lines 92–112 of
`adversarial.py`).  `generate x y` stands for the external ART call
`self.adv_class.generate(x=..., y=...)[0, :]` (`y = none` for the
unconditioned call); `n` is the adapter's chunk size.  Note the loop body:
line 104 computes the label-conditioned result into `temp`, and line 105
unconditionally overwrites `temp` with the unconditioned result before it
is appended. -/
def advTransform (generate : List ℚ → Option ℤ → List ℚ) (n : ℕ)
    (s : AdvTState) : AdvTState :=
  let chunked := get_chunk n s.data
  let adv_res := chunked.1.map (fun chunk =>
    let temp :=
      match s.y_true with
      | some y =>
        let _conditioned := generate chunk (some y)
        generate chunk none
      | none => generate chunk none
    temp)
  let audio := chunk_to_audio adv_res chunked.2
  { s with augmented_audio := some (librosa_to_pydub audio s.sr) }

/-- Errors raised by the run-time methods. -/
inductive RunError where
  | notImplementedError
  | attrError
deriving DecidableEq, Repr

/-- `AdversarialNoiseAugmentor.transform_load` (lines 114–117):
`raise NotImplementedError`, before touching any state. -/
def transform_load (input_dir : String) (batch_size : ℕ) (s : AdvTState) :
    Except RunError Unit × AdvTState :=
  (Except.error RunError.notImplementedError, s)

/-- A pseudo-random source: a stream of draws and a cursor.  Each draw is
one consumption of randomness. -/
structure RNG where
  stream : ℕ → ℚ
  idx : ℕ

/-- `random.uniform(a, b)`: `a + (b - a) * r` for one fresh draw
`r ∈ [0, 1)` from the source. -/
def randomUniform (a b : ℚ) (g : RNG) : ℚ × RNG :=
  (a + (b - a) * g.stream g.idx, { g with idx := g.idx + 1 })

/-- The state of a `SpeedAugmentor` (`speed.py`). -/
structure SpeedState where
  input_path : String
  speed_factor : ℚ
  data : List ℚ
  sr : ℕ
  audio_data : Option AudioSeg
  augmented_audio : Option AudioSeg

/-- `SpeedAugmentor.__init__` (lines 8–17 of `speed.py`): reads
`min_speed_factor` and `max_speed_factor` from the config (a missing key
raises `KeyError`, a non-numeric value makes `random.uniform` raise), and
samples the speed factor at construction, consuming one draw.
`self.audio_data` starts as `None`.  `BaseAugmentor.__init__` is not under
`src/`; modelled from the spec as lifecycle set-up with no validation. -/
def speedInit (input_path : String) (cfg : Config) (g : RNG) :
    Except InitError (SpeedState × RNG) :=
  match cfg.get? "min_speed_factor" with
  | none => Except.error (InitError.keyError "min_speed_factor")
  | some v1 =>
    match cfg.get? "max_speed_factor" with
    | none => Except.error (InitError.keyError "max_speed_factor")
    | some v2 =>
      match v1, v2 with
      | Value.num a, Value.num b =>
        let drawn := randomUniform a b g
        Except.ok
          ({ input_path := input_path, speed_factor := drawn.1, data := [],
             sr := 0, audio_data := none, augmented_audio := none }, drawn.2)
      | _, _ => Except.error (InitError.assertionError "speed_factor_bounds" [])

/-- `SpeedAugmentor.load` (lines 19–23): the base loader fills `data`/`sr`
(base class not under `src/`, modelled from the spec as producing the
waveform and sample rate), then the buffer is converted to a pydub
segment. -/
def speedLoad (loaded : List ℚ) (loadedSr : ℕ) (s : SpeedState) : SpeedState :=
  { s with data := loaded, sr := loadedSr,
           audio_data := some (librosa_to_pydub loaded loadedSr) }

/-- `SpeedAugmentor.transform` (lines 25–26):
`self.augmented_audio = self.audio_data.speedup(self.speed_factor)`.
`speedup` stands for the external pydub call; calling it on an unloaded
(`None`) `audio_data` is an attribute error.  The random source is
threaded through to make its non-use observable. -/
def speedTransform (speedup : AudioSeg → ℚ → AudioSeg) (s : SpeedState)
    (g : RNG) : Except RunError SpeedState × RNG :=
  match s.audio_data with
  | none => (Except.error RunError.attrError, g)
  | some ad =>
    (Except.ok { s with augmented_audio := some (speedup ad s.speed_factor) }, g)

/-- The conditioned/unconditioned attack used to exhibit C1's divergence:
its output differs according to whether a label is supplied. -/
def c1gen (x : List ℚ) (y : Option ℤ) : List ℚ :=
  match y with
  | some _ => x.map (fun _ => 9)
  | none => x

/-! ## Theorems -/

/-- C6: for every `AdversarialNoiseAugmentor` instance state and all argument
values (`input_dir`, `batch_size`), `transform_load` raises
`NotImplementedError` unconditionally and leaves the instance state
unchanged. -/
theorem c6_transform_load_always_fails (input_dir : String) (batch_size : ℕ)
    (s : AdvTState) :
    transform_load input_dir batch_size s
      = (Except.error RunError.notImplementedError, s) := rfl

/-- C8 counterexample: at a concrete loaded state, `transform` leaves the
loaded waveform buffer `data` exactly as it was (no in-place mutation),
while producing the augmented audio segment in a separate slot — refuting
the claim that the augmentation step mutates the loaded numeric waveform
buffer in place. -/
theorem c8_counterexample :
    (advTransform (fun x _ => x) 2
        ⟨[1, 2, 3], 8, none, none⟩).data = [1, 2, 3]
    ∧ (advTransform (fun x _ => x) 2
        ⟨[1, 2, 3], 8, none, none⟩).augmented_audio = some ⟨[1, 2, 3], 8⟩ := by
  constructor <;> decide

/-- C8 (amended): the augmentation step does not mutate the loaded waveform
buffer: `AdversarialNoiseAugmentor.transform` leaves `data` unchanged and
stores the audio-segment conversion of the reassembled waveform in the
separate output slot `augmented_audio`, and `SpeedAugmentor.transform`
likewise leaves its state unchanged except for storing the sped-up segment
in `augmented_audio`; that audio-segment output is what is externally
consumed. -/
theorem c8_transform_does_not_mutate_buffer
    (generate : List ℚ → Option ℤ → List ℚ) (n : ℕ) (s : AdvTState)
    (speedup : AudioSeg → ℚ → AudioSeg) (s' : SpeedState) (g : RNG)
    (ad : AudioSeg) (h : s'.audio_data = some ad) :
    (advTransform generate n s).data = s.data
    ∧ (∃ w, (advTransform generate n s).augmented_audio
        = some (librosa_to_pydub w s.sr))
    ∧ (speedTransform speedup s' g).1
        = Except.ok { s' with augmented_audio := some (speedup ad s'.speed_factor) } := by
  refine ⟨rfl, ⟨_, rfl⟩, ?_⟩
  simp [speedTransform, h]

/-- Witness for C8's amended theorem at a concrete loaded speed state. -/
theorem c8_transform_does_not_mutate_buffer_witness :
    (advTransform (fun x _ => x) 2 ⟨[1], 8, none, none⟩).data = [1]
    ∧ (∃ w, (advTransform (fun x _ => x) 2 ⟨[1], 8, none, none⟩).augmented_audio
        = some (librosa_to_pydub w 8))
    ∧ (speedTransform (fun a _ => a)
          ⟨"p", 1, [2], 8, some ⟨[2], 8⟩, none⟩ ⟨fun _ => 0, 0⟩).1
        = Except.ok ⟨"p", 1, [2], 8, some ⟨[2], 8⟩, some ⟨[2], 8⟩⟩ :=
  c8_transform_does_not_mutate_buffer (fun x _ => x) 2 ⟨[1], 8, none, none⟩
    (fun a _ => a) ⟨"p", 1, [2], 8, some ⟨[2], 8⟩, none⟩ ⟨fun _ => 0, 0⟩
    ⟨[2], 8⟩ rfl

/-- C7: the speed augmentor consumes randomness exactly once, at
construction — `speedInit` on a well-formed configuration succeeds,
advancing the random cursor by exactly one and leaving the stream itself
untouched — while `transform` returns the random source unchanged and its
result does not depend on the random source at all: transforming the same
loaded state with any two sources yields equal outputs (computed with the
factor fixed at construction). -/
theorem c7_randomness_consumed_once_at_construction
    (speedup : AudioSeg → ℚ → AudioSeg) (s : SpeedState) (g₁ g₂ : RNG)
    (input_path : String) (cfg : Config) (g : RNG) (a b : ℚ)
    (hmin : cfg.get? "min_speed_factor" = some (Value.num a))
    (hmax : cfg.get? "max_speed_factor" = some (Value.num b)) :
    (∃ st g', speedInit input_path cfg g = Except.ok (st, g')
        ∧ g'.idx = g.idx + 1 ∧ g'.stream = g.stream)
    ∧ (speedTransform speedup s g₁).2 = g₁
    ∧ (speedTransform speedup s g₁).1 = (speedTransform speedup s g₂).1 := by
  refine ⟨⟨⟨input_path, a + (b - a) * g.stream g.idx, [], 0, none, none⟩,
      ⟨g.stream, g.idx + 1⟩, ?_, rfl, rfl⟩, ?_, ?_⟩
  · simp [speedInit, hmin, hmax, randomUniform]
  · cases h2 : s.audio_data <;> simp [speedTransform, h2]
  · cases h2 : s.audio_data <;> simp [speedTransform, h2]

/-- Witness for C7 at a concrete configuration and random source. -/
theorem c7_randomness_consumed_once_witness :
    (∃ st g', speedInit "p"
          [("min_speed_factor", Value.num 2), ("max_speed_factor", Value.num 4)]
          ⟨fun _ => (0 : ℚ), 5⟩ = Except.ok (st, g')
        ∧ g'.idx = (⟨fun _ => (0 : ℚ), 5⟩ : RNG).idx + 1
        ∧ g'.stream = (⟨fun _ => (0 : ℚ), 5⟩ : RNG).stream)
    ∧ (speedTransform (fun a _ => a) ⟨"p", 1, [], 0, some ⟨[3], 8⟩, none⟩
        ⟨fun _ => (0 : ℚ), 0⟩).2 = ⟨fun _ => (0 : ℚ), 0⟩
    ∧ (speedTransform (fun a _ => a) ⟨"p", 1, [], 0, some ⟨[3], 8⟩, none⟩
        ⟨fun _ => (0 : ℚ), 0⟩).1
      = (speedTransform (fun a _ => a) ⟨"p", 1, [], 0, some ⟨[3], 8⟩, none⟩
        ⟨fun _ => (0 : ℚ), 1⟩).1 :=
  c7_randomness_consumed_once_at_construction (fun a _ => a)
    ⟨"p", 1, [], 0, some ⟨[3], 8⟩, none⟩
    ⟨fun _ => (0 : ℚ), 0⟩ ⟨fun _ => (0 : ℚ), 1⟩ "p"
    [("min_speed_factor", Value.num 2), ("max_speed_factor", Value.num 4)]
    ⟨fun _ => (0 : ℚ), 5⟩ 2 4 rfl rfl

/-- C4: for every speed-augmentor configuration with
`min_speed_factor ≤ max_speed_factor` and a random draw in `[0, 1)`, the
speed factor sampled at construction lies within the configured bounds. -/
theorem c4_speed_factor_within_bounds (input_path : String) (cfg : Config)
    (g : RNG) (a b : ℚ)
    (hmin : cfg.get? "min_speed_factor" = some (Value.num a))
    (hmax : cfg.get? "max_speed_factor" = some (Value.num b))
    (hab : a ≤ b) (hr0 : 0 ≤ g.stream g.idx) (hr1 : g.stream g.idx < 1) :
    ∃ st g', speedInit input_path cfg g = Except.ok (st, g')
      ∧ a ≤ st.speed_factor ∧ st.speed_factor ≤ b := by
  refine ⟨⟨input_path, a + (b - a) * g.stream g.idx, [], 0, none, none⟩,
    ⟨g.stream, g.idx + 1⟩, ?_, ?_, ?_⟩
  · simp [speedInit, hmin, hmax, randomUniform]
  · show a ≤ a + (b - a) * g.stream g.idx
    nlinarith [mul_nonneg (sub_nonneg.mpr hab) hr0]
  · show a + (b - a) * g.stream g.idx ≤ b
    nlinarith [mul_nonneg (sub_nonneg.mpr hab) (sub_nonneg.mpr hr1.le)]

/-- Witness for C4 at a concrete configuration and random source. -/
theorem c4_speed_factor_within_bounds_witness :
    ∃ st g', speedInit "w"
        [("min_speed_factor", Value.num 1), ("max_speed_factor", Value.num 3)]
        ⟨fun _ => (0 : ℚ), 0⟩ = Except.ok (st, g')
      ∧ (1 : ℚ) ≤ st.speed_factor ∧ st.speed_factor ≤ 3 :=
  c4_speed_factor_within_bounds "w"
    [("min_speed_factor", Value.num 1), ("max_speed_factor", Value.num 3)]
    ⟨fun _ => (0 : ℚ), 0⟩ 1 3 rfl rfl (by norm_num) (by norm_num) (by norm_num)

/-- C1: evaluation at the failing input.  With `y_true = some 1` and an
attack whose conditioned output (all samples `9`) differs from its
unconditioned output (the identity), `transform` appends the
unconditioned per-chunk results: the reassembled output is `[1,2,3,4]`,
not the conditioned `[9,9,9,9]` — line 105 of `adversarial.py`
unconditionally overwrites the conditioned result computed on
line 104. -/
theorem c1_conditioned_result_discarded :
    (advTransform c1gen 2 ⟨[1, 2, 3, 4], 16, some 1, none⟩).augmented_audio
      = some (librosa_to_pydub [1, 2, 3, 4] 16)
    ∧ (advTransform c1gen 2 ⟨[1, 2, 3, 4], 16, some 1, none⟩).augmented_audio
      ≠ some (librosa_to_pydub [9, 9, 9, 9] 16)
    ∧ c1gen [1, 2] (some 1) ≠ c1gen [1, 2] none := by
  refine ⟨by decide, by decide, by decide⟩

/-- A value passing the line-58 membership assert is one of the four
supported model-name strings. -/
theorem valueIn_supported_cm_cases (mn : Value)
    (h : valueIn mn SUPPORTED_CM = true) :
    mn = Value.str "rawnet2" ∨ mn = Value.str "btse"
      ∨ mn = Value.str "aasistssl" ∨ mn = Value.str "lcnn" := by
  simp only [valueIn, SUPPORTED_CM, List.any_cons, List.any_nil,
    Bool.or_eq_true, beq_iff_eq, Bool.or_false] at h
  tauto

/-- C2 counterexample: a configuration whose `model_name` is unsupported
but which lacks the `model_pretrained` key makes construction fail with a
`KeyError` (line 53 runs before the line-58 assert), not with the
validation error enumerating the supported model names — refuting the
claim for arbitrary configuration mappings. -/
theorem c2_counterexample :
    (adversarialInit [("model_name", Value.str "wav2vec")] none).2
      = Except.error (InitError.keyError "model_pretrained")
    ∧ (adversarialInit [("model_name", Value.str "wav2vec")] none).2
      ≠ Except.error (InitError.assertionError "model_name" SUPPORTED_CM) := by
  constructor <;> decide

/-- C2 (amended): for every configuration that also contains the
`model_pretrained`, `device` and `adv_method` keys, an unsupported
`model_name` makes construction fail with the validation error
enumerating the supported model names, and the event trace shows that no
classifier adapter was instantiated beforehand. -/
theorem c2_unsupported_model_name_validation (cfg : Config) (y : Option ℤ)
    (mn mp dv am : Value)
    (h1 : cfg.get? "model_name" = some mn)
    (h2 : cfg.get? "model_pretrained" = some mp)
    (h3 : cfg.get? "device" = some dv)
    (h4 : cfg.get? "adv_method" = some am)
    (h5 : valueIn mn SUPPORTED_CM = false) :
    adversarialInit cfg y
      = ([Event.baseInit],
         Except.error (InitError.assertionError "model_name" SUPPORTED_CM)) := by
  simp [adversarialInit, h1, h2, h3, h4, h5]

/-- Witness for C2's amended theorem at a concrete configuration. -/
theorem c2_unsupported_model_name_witness :
    adversarialInit
        [("model_name", Value.str "wavlm"), ("model_pretrained", Value.str "w.pt"),
         ("device", Value.str "cpu"), ("adv_method", Value.str "FastGradientMethod")]
        none
      = ([Event.baseInit],
         Except.error (InitError.assertionError "model_name" SUPPORTED_CM)) :=
  c2_unsupported_model_name_validation _ none (Value.str "wavlm")
    (Value.str "w.pt") (Value.str "cpu") (Value.str "FastGradientMethod")
    rfl rfl rfl rfl rfl

/-- C3 counterexample: a configuration whose `adv_method` is unsupported
but which lacks the `model_pretrained` key makes construction fail with a
`KeyError` (line 53 runs before the line-85 assert), not with a
validation error enumerating valid choices — refuting the claim for
arbitrary configuration mappings. -/
theorem c3_counterexample :
    (adversarialInit
        [("model_name", Value.str "rawnet2"), ("adv_method", Value.str "CarliniWagner")]
        none).2
      = Except.error (InitError.keyError "model_pretrained")
    ∧ (adversarialInit
        [("model_name", Value.str "rawnet2"), ("adv_method", Value.str "CarliniWagner")]
        none).2
      ≠ Except.error (InitError.assertionError "adv_method" SUPPORTED_ADV) := by
  constructor <;> decide

/-- C3 (amended): for every configuration containing the required keys —
`model_pretrained`, `device`, a supported `model_name`, and the selected
branch's own key (`ssl_model` for `aasistssl`, `config_path` otherwise) —
an unsupported `adv_method` makes construction fail with the validation
error enumerating the supported attack names, and the attack object is
never instantiated (no `attackInstantiated` event in the trace). -/
theorem c3_unsupported_adv_method_validation (cfg : Config) (y : Option ℤ)
    (mn mp dv am bk : Value)
    (h1 : cfg.get? "model_name" = some mn)
    (h2 : cfg.get? "model_pretrained" = some mp)
    (h3 : cfg.get? "device" = some dv)
    (h4 : cfg.get? "adv_method" = some am)
    (h5 : valueIn mn SUPPORTED_CM = true)
    (h6 : ∀ s, mn = Value.str s → cfg.get? (branchKey s) = some bk)
    (h7 : valueIn am SUPPORTED_ADV = false) :
    ∃ s, mn = Value.str s
      ∧ adversarialInit cfg y
        = ([Event.baseInit, Event.modelNameValidated,
            Event.adapterInstantiated s, Event.weightsLoaded s],
           Except.error (InitError.assertionError "adv_method" SUPPORTED_ADV))
      ∧ Event.attackInstantiated ∉ (adversarialInit cfg y).1 := by
  rcases valueIn_supported_cm_cases mn h5 with h | h | h | h <;> subst h <;>
    (have h6' := h6 _ rfl
     simp only [branchKey] at h6'
     simp at h6'
     refine ⟨_, rfl, ?_, ?_⟩ <;>
       simp [adversarialInit, runBranches, runModelBranch, branchKey,
         h1, h2, h3, h4, h5, h7, h6'])

/-- Witness for C3's amended theorem at a concrete configuration. -/
theorem c3_unsupported_adv_method_witness :
    ∃ s, Value.str "btse" = Value.str s
      ∧ adversarialInit
          [("model_name", Value.str "btse"), ("model_pretrained", Value.str "b.pt"),
           ("device", Value.str "cuda"), ("adv_method", Value.str "BoundaryAttack"),
           ("config_path", Value.str "b.yaml")] none
        = ([Event.baseInit, Event.modelNameValidated,
            Event.adapterInstantiated s, Event.weightsLoaded s],
           Except.error (InitError.assertionError "adv_method" SUPPORTED_ADV))
      ∧ Event.attackInstantiated ∉
          (adversarialInit
            [("model_name", Value.str "btse"), ("model_pretrained", Value.str "b.pt"),
             ("device", Value.str "cuda"), ("adv_method", Value.str "BoundaryAttack"),
             ("config_path", Value.str "b.yaml")] none).1 :=
  c3_unsupported_adv_method_validation _ none (Value.str "btse")
    (Value.str "b.pt") (Value.str "cuda") (Value.str "BoundaryAttack")
    (Value.str "b.yaml") rfl rfl rfl rfl rfl
    (by intro s hs; cases hs; rfl) rfl

/-- C9 counterexample: a configuration with a supported `model_name` and an
unsupported `adv_method` but no `config_path` key fails with a `KeyError`
while instantiating the adapter's arguments: no adapter is instantiated,
no weights are loaded, and the failure is not the `adv_method` validation
— refuting the claim for arbitrary such configurations. -/
theorem c9_counterexample :
    adversarialInit
        [("model_name", Value.str "rawnet2"), ("model_pretrained", Value.str "m.pt"),
         ("device", Value.str "cuda"), ("adv_method", Value.str "DeepFool")] none
      = ([Event.baseInit, Event.modelNameValidated],
         Except.error (InitError.keyError "config_path"))
    ∧ Event.adapterInstantiated "rawnet2" ∉
        (adversarialInit
          [("model_name", Value.str "rawnet2"), ("model_pretrained", Value.str "m.pt"),
           ("device", Value.str "cuda"), ("adv_method", Value.str "DeepFool")] none).1 := by
  constructor <;> decide

/-- C9 (amended): for every configuration containing the required keys —
`model_pretrained`, `device`, a supported `model_name`, and the selected
branch's own key — with an unsupported `adv_method`, the classifier
adapter is instantiated and its pretrained weights are loaded (both
events occur in the construction trace) even though construction fails,
on the `adv_method` validation. -/
theorem c9_model_loaded_despite_failure (cfg : Config) (y : Option ℤ)
    (mn mp dv am bk : Value)
    (h1 : cfg.get? "model_name" = some mn)
    (h2 : cfg.get? "model_pretrained" = some mp)
    (h3 : cfg.get? "device" = some dv)
    (h4 : cfg.get? "adv_method" = some am)
    (h5 : valueIn mn SUPPORTED_CM = true)
    (h6 : ∀ s, mn = Value.str s → cfg.get? (branchKey s) = some bk)
    (h7 : valueIn am SUPPORTED_ADV = false) :
    ∃ s, mn = Value.str s
      ∧ (adversarialInit cfg y).2
        = Except.error (InitError.assertionError "adv_method" SUPPORTED_ADV)
      ∧ Event.adapterInstantiated s ∈ (adversarialInit cfg y).1
      ∧ Event.weightsLoaded s ∈ (adversarialInit cfg y).1 := by
  rcases valueIn_supported_cm_cases mn h5 with h | h | h | h <;> subst h <;>
    (have h6' := h6 _ rfl
     simp only [branchKey] at h6'
     simp at h6'
     refine ⟨_, rfl, ?_, ?_, ?_⟩ <;>
       simp [adversarialInit, runBranches, runModelBranch, branchKey,
         h1, h2, h3, h4, h5, h7, h6'])

/-- Witness for C9's amended theorem at a concrete configuration. -/
theorem c9_model_loaded_despite_failure_witness :
    ∃ s, Value.str "lcnn" = Value.str s
      ∧ (adversarialInit
          [("model_name", Value.str "lcnn"), ("model_pretrained", Value.str "l.pt"),
           ("device", Value.str "cpu"), ("adv_method", Value.str "SquareAttack"),
           ("config_path", Value.str "l.yaml")] none).2
        = Except.error (InitError.assertionError "adv_method" SUPPORTED_ADV)
      ∧ Event.adapterInstantiated s ∈
          (adversarialInit
            [("model_name", Value.str "lcnn"), ("model_pretrained", Value.str "l.pt"),
             ("device", Value.str "cpu"), ("adv_method", Value.str "SquareAttack"),
             ("config_path", Value.str "l.yaml")] none).1
      ∧ Event.weightsLoaded s ∈
          (adversarialInit
            [("model_name", Value.str "lcnn"), ("model_pretrained", Value.str "l.pt"),
             ("device", Value.str "cpu"), ("adv_method", Value.str "SquareAttack"),
             ("config_path", Value.str "l.yaml")] none).1 :=
  c9_model_loaded_despite_failure _ none (Value.str "lcnn")
    (Value.str "l.pt") (Value.str "cpu") (Value.str "SquareAttack")
    (Value.str "l.yaml") rfl rfl rfl rfl rfl
    (by intro s hs; cases hs; rfl) rfl

/-- C10 counterexample: a configuration with `model_name = "aasistssl"`,
all of `model_pretrained`, `device` and `adv_method` present, but
`ssl_model` missing, fails with a key-lookup error only *after* the
model-name supported-set validation has run (the `modelNameValidated`
event is in the trace) — refuting the claim that the key-lookup failure
always precedes any supported-set validation. -/
theorem c10_counterexample :
    adversarialInit
        [("model_name", Value.str "aasistssl"), ("model_pretrained", Value.str "a.pt"),
         ("device", Value.str "cpu"), ("adv_method", Value.str "FastGradientMethod")]
        none
      = ([Event.baseInit, Event.modelNameValidated],
         Except.error (InitError.keyError "ssl_model"))
    ∧ Event.modelNameValidated ∈
        (adversarialInit
          [("model_name", Value.str "aasistssl"), ("model_pretrained", Value.str "a.pt"),
           ("device", Value.str "cpu"), ("adv_method", Value.str "FastGradientMethod")]
          none).1 := by
  constructor <;> decide

/-- C10 (amended): a configuration missing `model_name`,
`model_pretrained`, `device` or `adv_method` makes construction fail with
a key-lookup error for the first missing key, before any supported-set
validation runs; a configuration with `model_name = "aasistssl"` and
those four keys present but `ssl_model` missing also fails with a
key-lookup error, but only after the model-name supported-set validation
has passed (and before the `adv_method` validation and before adapter
instantiation). -/
theorem c10_missing_key_lookup_errors (cfg : Config) (y : Option ℤ) :
    (cfg.get? "model_name" = none →
      adversarialInit cfg y
        = ([Event.baseInit], Except.error (InitError.keyError "model_name")))
    ∧ (∀ mn, cfg.get? "model_name" = some mn →
        cfg.get? "model_pretrained" = none →
        adversarialInit cfg y
          = ([Event.baseInit], Except.error (InitError.keyError "model_pretrained")))
    ∧ (∀ mn mp, cfg.get? "model_name" = some mn →
        cfg.get? "model_pretrained" = some mp → cfg.get? "device" = none →
        adversarialInit cfg y
          = ([Event.baseInit], Except.error (InitError.keyError "device")))
    ∧ (∀ mn mp dv, cfg.get? "model_name" = some mn →
        cfg.get? "model_pretrained" = some mp → cfg.get? "device" = some dv →
        cfg.get? "adv_method" = none →
        adversarialInit cfg y
          = ([Event.baseInit], Except.error (InitError.keyError "adv_method")))
    ∧ (∀ mp dv am, cfg.get? "model_name" = some (Value.str "aasistssl") →
        cfg.get? "model_pretrained" = some mp → cfg.get? "device" = some dv →
        cfg.get? "adv_method" = some am → cfg.get? "ssl_model" = none →
        adversarialInit cfg y
          = ([Event.baseInit, Event.modelNameValidated],
             Except.error (InitError.keyError "ssl_model"))) := by
  refine ⟨?_, ?_, ?_, ?_, ?_⟩
  · intro h1; simp [adversarialInit, h1]
  · intro mn h1 h2; simp [adversarialInit, h1, h2]
  · intro mn mp h1 h2 h3; simp [adversarialInit, h1, h2, h3]
  · intro mn mp dv h1 h2 h3 h4; simp [adversarialInit, h1, h2, h3, h4]
  · intro mp dv am h1 h2 h3 h4 h5
    simp [adversarialInit, runBranches, runModelBranch, branchKey,
      h1, h2, h3, h4, h5, valueIn, SUPPORTED_CM]

/-- Witness for C10's amended theorem: the `ssl_model` case at a concrete
configuration. -/
theorem c10_missing_key_lookup_witness :
    adversarialInit
        [("model_name", Value.str "aasistssl"), ("model_pretrained", Value.str "s.pt"),
         ("device", Value.str "cuda"), ("adv_method", Value.str "ProjectedGradientDescent")]
        none
      = ([Event.baseInit, Event.modelNameValidated],
         Except.error (InitError.keyError "ssl_model")) :=
  (c10_missing_key_lookup_errors _ none).2.2.2.2 (Value.str "s.pt")
    (Value.str "cuda") (Value.str "ProjectedGradientDescent")
    rfl rfl rfl rfl rfl

/-- Reassembly length: concatenating all chunks but the last and truncating
the last to `lastSize ≤ n` yields `(count - 1) * n + lastSize` samples when
every chunk has length `n`. -/
theorem chunk_to_audio_length (n lastSize : ℕ) (hl : lastSize ≤ n) :
    ∀ outs : List (List ℚ), outs ≠ [] → (∀ c ∈ outs, c.length = n) →
      (chunk_to_audio outs lastSize).length = (outs.length - 1) * n + lastSize := by
  intro outs
  induction outs with
  | nil => intro h; exact absurd rfl h
  | cons c rest ih =>
    intro _ hc
    cases rest with
    | nil =>
      have hcn : c.length = n := hc c (by simp)
      simp [chunk_to_audio, List.length_take, hcn, Nat.min_eq_left hl]
    | cons c' rest' =>
      have hcn : c.length = n := hc c (by simp)
      have hrec := ih (by simp) (fun x hx => hc x (List.mem_cons_of_mem _ hx))
      simp only [chunk_to_audio, List.length_append, hrec, hcn, List.length_cons,
        Nat.add_sub_cancel]
      rw [Nat.add_mul, Nat.one_mul]
      omega

/-- C5: splitting a loaded audio buffer into model-sized chunks with a
recorded remainder size (`get_chunk`) and reassembling per-chunk attack
outputs with that remainder size (`chunk_to_audio`) yields a waveform with
exactly the original number of samples, provided there are as many outputs
as chunks and each output has the chunk length `n`. -/
theorem c5_reassembly_restores_length (n : ℕ) (data : List ℚ)
    (outs : List (List ℚ)) (hn : 0 < n)
    (hlen : outs.length = (get_chunk n data).1.length)
    (hc : ∀ c ∈ outs, c.length = n) :
    (chunk_to_audio outs (get_chunk n data).2).length = data.length := by
  have hk1 : (get_chunk n data).1.length = (data.length + n - 1) / n := by
    simp [get_chunk]
  have hk2 : (get_chunk n data).2
      = data.length - ((data.length + n - 1) / n - 1) * n := by
    simp [get_chunk]
  by_cases h0 : data.length = 0
  · have hkz : (data.length + n - 1) / n = 0 := by
      rw [h0]; exact Nat.div_eq_of_lt (by omega)
    have houts : outs = [] := by
      have := hlen
      rw [hk1, hkz] at this
      exact List.eq_nil_of_length_eq_zero this
    rw [houts, h0]
    rfl
  · have hlen1 : 1 ≤ data.length := Nat.one_le_iff_ne_zero.mpr h0
    have hkq : (data.length + n - 1) / n = (data.length - 1) / n + 1 := by
      have harg : data.length + n - 1 = (data.length - 1) + n := by omega
      rw [harg, Nat.add_div_right _ hn]
    have hdm := Nat.div_add_mod (data.length - 1) n
    have hr : (data.length - 1) % n < n := Nat.mod_lt _ hn
    have hbridge : (data.length - 1) / n * n = n * ((data.length - 1) / n) :=
      Nat.mul_comm _ _
    have hko : outs.length = (data.length - 1) / n + 1 := by
      rw [hlen, hk1, hkq]
    have hne : outs ≠ [] := by
      intro h
      rw [h] at hko
      exact Nat.succ_ne_zero _ hko.symm
    have hk2' : (get_chunk n data).2
        = data.length - (data.length - 1) / n * n := by
      rw [hk2, hkq]
      simp only [Nat.add_sub_cancel]
    have hlast : (get_chunk n data).2 ≤ n := by
      rw [hk2']
      omega
    rw [chunk_to_audio_length n _ hlast outs hne hc, hko, hk2']
    simp only [Nat.add_sub_cancel]
    omega

/-- Witness for C5 at a concrete buffer: three samples, chunk size two,
per-chunk outputs of length two each. -/
theorem c5_reassembly_restores_length_witness :
    (chunk_to_audio [[5, 6], [7, 8]] (get_chunk 2 [1, 2, 3]).2).length
      = ([1, 2, 3] : List ℚ).length :=
  c5_reassembly_restores_length 2 [1, 2, 3] [[5, 6], [7, 8]]
    (by decide) (by decide) (by decide)

end AudioAugmentor
